import Mathlib

/-!
Verification of the Medical-claim reconciliation pipeline.

This file gives a shallow embedding, in Lean 4, of the decision logic of the
repository: the reimbursement engine (`backend/reimbursement_engine.py` in the
`unwanted` tree), the medicine matchers (`unwanted/backend/medicine_matcher.py`
and `backend/medicine_matcher.py`), the amount allocators
(`backend/app/services/extraction_service.py` and `backend/claim_parser.py`),
and the simple matcher (`backend/app/services/matching_service.py`).

Modelling conventions:
* Python floats are modelled as rationals (`ℚ`); all the thresholds and
  percentages of the source are decimal literals far from floating-point
  boundary behaviour.
* Python's stdlib `difflib.SequenceMatcher(..).ratio()` (used by
  `_calculate_similarity`) is external library code, not repository code; it
  is modelled as an abstract parameter `ratio : String → String → ℚ`, so every
  theorem quantified over `ratio` holds for the real metric in particular.
* Python `round(x, 2)` is round-half-to-even at two decimals, modelled by
  `roundHalfEven` / `round2` below.
* Python string containment (`a in b`) is modelled by `strContains`, and
  `str.lower()` by `strLower`.
-/

/-- Lowercase a string character by character, modelling Python `str.lower()`
for the ASCII data used in the static dictionaries of this repository. -/
def strLower (s : String) : String :=
  String.mk (s.toList.map Char.toLower)

/-- Does the first list appear at the head of the second? -/
def leadsWith : List Char → List Char → Bool
  | [], _ => true
  | _ :: _, [] => false
  | a :: as, b :: bs => a == b && leadsWith as bs

/-- Does `needle` occur contiguously inside `hay`? -/
def occursIn (needle : List Char) : List Char → Bool
  | [] => leadsWith needle []
  | b :: bs => leadsWith needle (b :: bs) || occursIn needle bs

/-- Python `needle in hay` on strings: contiguous substring test. -/
def strContains (hay needle : String) : Bool :=
  occursIn needle.toList hay.toList

/-- Round a rational to the nearest integer, ties to even: the semantics of
Python 3 `round`. -/
def roundHalfEven (q : ℚ) : ℤ :=
  let f := q.floor
  let r := q - (f : ℚ)
  if r < 1/2 then f
  else if 1/2 < r then f + 1
  else if f % 2 = 0 then f else f + 1

/-- Python `round(x, 2)`: round to two decimal places, ties to even. -/
def round2 (q : ℚ) : ℚ :=
  (roundHalfEven (100 * q) : ℚ) / 100

/-! ## Reimbursement engine (`unwanted/backend/reimbursement_engine.py`) -/

/-- `ReimbursementPolicy` dataclass (reimbursement_engine.py lines 13-23). -/
structure ReimbursementPolicy where
  name : String
  medicine_coverage_percent : ℚ
  test_coverage_percent : ℚ
  consultation_coverage_percent : ℚ
  max_claim_amount : ℚ
  requires_prescription : Bool
  allows_otc_medicines : Bool
  max_days_from_prescription : ℕ
deriving DecidableEq

/-- The `"standard"` policy entry of `ReimbursementEngine.policies`. -/
def standardPolicy : ReimbursementPolicy :=
  ⟨"Standard", 80, 70, 50, 100000, true, false, 30⟩

/-- The `"premium"` policy entry of `ReimbursementEngine.policies`. -/
def premiumPolicy : ReimbursementPolicy :=
  ⟨"Premium", 100, 90, 80, 500000, true, true, 45⟩

/-- The `"basic"` policy entry of `ReimbursementEngine.policies`. -/
def basicPolicy : ReimbursementPolicy :=
  ⟨"Basic", 60, 50, 30, 50000, true, false, 15⟩

/-- Lookup in the `self.policies` dict. -/
def policiesGet (policyType : String) : Option ReimbursementPolicy :=
  if policyType = "standard" then some standardPolicy
  else if policyType = "premium" then some premiumPolicy
  else if policyType = "basic" then some basicPolicy
  else none

/-- `self.policies.get(policy_type, self.policies["standard"])`
(reimbursement_engine.py line 93): the policy actually applied by
`analyze_reimbursement`. -/
def getPolicy (policyType : String) : ReimbursementPolicy :=
  (policiesGet policyType).getD standardPolicy

/-- `self.otc_medicines` (reimbursement_engine.py lines 68-73). -/
def otc_medicines : List String :=
  ["paracetamol", "acetaminophen", "aspirin", "ibuprofen",
   "antacid", "vitamin", "calcium", "iron", "folic acid",
   "cough syrup", "throat lozenges", "bandage", "antiseptic",
   "ointment", "cream", "lotion", "drops"]

/-- `self.non_reimbursable` (reimbursement_engine.py lines 76-80). -/
def non_reimbursable : List String :=
  ["cosmetic", "beauty", "fairness", "whitening", "anti-aging",
   "hair growth", "weight loss", "protein powder", "supplement",
   "energy drink", "viagra", "cialis", "levitra"]

/-- `_is_otc_medicine`: any OTC entry occurs in the lowercased name. -/
def is_otc_medicine (medicineName : String) : Bool :=
  let medLower := strLower medicineName
  otc_medicines.any (fun otc => strContains medLower otc)

/-- `_is_non_reimbursable`: any excluded entry occurs in the lowercased name. -/
def is_non_reimbursable (medicineName : String) : Bool :=
  let medLower := strLower medicineName
  non_reimbursable.any (fun excluded => strContains medLower excluded)

/-- `_find_fuzzy_match`: best prescribed candidate under the abstract
similarity `ratio` (strict improvement, so the first maximum wins), returned
only when the best match is truthy (a non-empty string) and its similarity
exceeds 0.7. -/
def find_fuzzy_match (ratio : String → String → ℚ) (medicineName : String)
    (prescribedList : List String) : Option (String × ℚ) :=
  let best := prescribedList.foldl
    (fun (acc : Option String × ℚ) prescribed =>
      let similarity := ratio medicineName prescribed
      if acc.2 < similarity then (some prescribed, similarity) else acc)
    (none, 0)
  match best.1 with
  | some m => if m ≠ "" ∧ (7/10 : ℚ) < best.2 then some (m, best.2) else none
  | none => none

/-- One bill or prescription medicine dict, as produced by
`extract_medicine_names`: the fields `_compare_medicines` reads. -/
structure BillMed where
  name : String
  original_text : String := ""
  confidence : ℚ := 0
deriving DecidableEq

/-- The match type tags used across the comparison functions. -/
inductive MatchType where
  | exact
  | fuzzy
  | high_confidence
  | moderate_confidence
  | otc
  | excluded
  | no_match
deriving DecidableEq

/-- The per-medicine record built by `_compare_medicines` (`med_info`):
medicine name, match type tag, and whether the status is `"admissible"`.
The human-readable `reason` strings are presentational and omitted. -/
structure MedInfo where
  medicine : String
  match_type : MatchType
  admissible : Bool
deriving DecidableEq

/-- The tail of the `_compare_medicines` decision ladder, reached when neither
the exact-membership check nor the fuzzy branch fired: OTC tier (policy
permitting), then the non-reimbursable check, then `no_match`. -/
def classifyTail (policy : ReimbursementPolicy) (medName billName : String) : MedInfo :=
  if policy.allows_otc_medicines && is_otc_medicine medName then
    ⟨billName, MatchType.otc, true⟩
  else if is_non_reimbursable medName then
    ⟨billName, MatchType.excluded, false⟩
  else
    ⟨billName, MatchType.no_match, false⟩

/-- The full `_compare_medicines` decision ladder for one bill medicine
(reimbursement_engine.py lines 148-199). -/
def classify_bill_med (ratio : String → String → ℚ) (policy : ReimbursementPolicy)
    (prescribedNames : List String) (billMed : BillMed) : MedInfo :=
  let medName := strLower billMed.name
  if prescribedNames.contains medName then
    ⟨billMed.name, MatchType.exact, true⟩
  else
    match find_fuzzy_match ratio medName prescribedNames with
    | some fm =>
        if (8/10 : ℚ) < fm.2 then ⟨billMed.name, MatchType.fuzzy, true⟩
        else classifyTail policy medName billMed.name
    | none => classifyTail policy medName billMed.name

/-- The dict returned by `_compare_medicines`. -/
structure ComparisonResult where
  admissible : List MedInfo
  nonAdmissible : List MedInfo
  comparisonDetails : List MedInfo
  missingPrescribed : List String
  complianceScore : ℚ
  totalBillItems : ℕ
  totalPrescribedItems : ℕ
  admissibleCount : ℕ
  nonAdmissibleCount : ℕ
deriving DecidableEq

/-- `_compare_medicines` (reimbursement_engine.py lines 130-235). Each bill
medicine is classified by the decision ladder; the `admissible` /
`non_admissible` lists collect the records by their status flag, and
`comparison_details` records every classification in order. The compliance
score divides by `len(bill_medicines) if bill_medicines else 1`. -/
def compare_medicines (ratio : String → String → ℚ)
    (billMedicines prescriptionMedicines : List BillMed)
    (policy : ReimbursementPolicy) : ComparisonResult :=
  let prescribedNames := (prescriptionMedicines.map (fun m => strLower m.name)).dedup
  let details := billMedicines.map (classify_bill_med ratio policy prescribedNames)
  let admissible := details.filter (fun i => i.admissible)
  let nonAdmissible := details.filter (fun i => !i.admissible)
  let totalItems := if billMedicines = [] then 1 else billMedicines.length
  let complianceScore := ((admissible.length : ℚ) / (totalItems : ℚ)) * 100
  let billNames := (billMedicines.map (fun m => strLower m.name)).dedup
  let missingPrescribed :=
    (prescriptionMedicines.filter (fun p =>
      let prescName := strLower p.name
      !(billNames.contains prescName) &&
      !(billNames.any (fun billName => (8/10 : ℚ) < ratio prescName billName)))).map
      (fun p => p.name)
  { admissible := admissible
    nonAdmissible := nonAdmissible
    comparisonDetails := details
    missingPrescribed := missingPrescribed
    complianceScore := complianceScore
    totalBillItems := billMedicines.length
    totalPrescribedItems := prescriptionMedicines.length
    admissibleCount := admissible.length
    nonAdmissibleCount := nonAdmissible.length }

/-- The bill amounts `_calculate_reimbursement` reads off `bill_claim`. -/
structure BillClaim where
  amount_spent_on_medicine : ℚ
  amount_spent_on_test : ℚ
  amount_spent_on_consultation : ℚ
deriving DecidableEq

/-- The dict returned by `_calculate_reimbursement`. -/
structure ReimbursementSummary where
  totalBillAmount : ℚ
  admissibleMedicineAmount : ℚ
  nonAdmissibleMedicineAmount : ℚ
  testAmount : ℚ
  consultationAmount : ℚ
  medicineReimbursement : ℚ
  testReimbursement : ℚ
  consultationReimbursement : ℚ
  totalReimbursement : ℚ
  policyMaxLimit : ℚ
  reimbursementCapped : Bool
  reimbursementPercentage : ℚ
  policyApplied : String
deriving DecidableEq

/-- `_calculate_reimbursement` (reimbursement_engine.py lines 237-303). -/
def calculate_reimbursement (billClaim : BillClaim) (cr : ComparisonResult)
    (policy : ReimbursementPolicy) : ReimbursementSummary :=
  let medicineAmount := billClaim.amount_spent_on_medicine
  let testAmount := billClaim.amount_spent_on_test
  let consultationAmount := billClaim.amount_spent_on_consultation
  let totalBill := medicineAmount + testAmount + consultationAmount
  let admissibleRatio : ℚ := (cr.admissibleCount : ℚ) / ((max cr.totalBillItems 1 : ℕ) : ℚ)
  let admissibleMedicineAmount := medicineAmount * admissibleRatio
  let medicineReimbursement := admissibleMedicineAmount * (policy.medicine_coverage_percent / 100)
  let testReimbursement := testAmount * (policy.test_coverage_percent / 100)
  let consultationReimbursement := consultationAmount * (policy.consultation_coverage_percent / 100)
  let rawTotal := medicineReimbursement + testReimbursement + consultationReimbursement
  let totalReimbursement := if policy.max_claim_amount < rawTotal then policy.max_claim_amount else rawTotal
  let capped := if policy.max_claim_amount < rawTotal then true else false
  let nonAdmissibleAmount := medicineAmount * (1 - admissibleRatio)
  { totalBillAmount := totalBill
    admissibleMedicineAmount := admissibleMedicineAmount
    nonAdmissibleMedicineAmount := nonAdmissibleAmount
    testAmount := testAmount
    consultationAmount := consultationAmount
    medicineReimbursement := medicineReimbursement
    testReimbursement := testReimbursement
    consultationReimbursement := consultationReimbursement
    totalReimbursement := totalReimbursement
    policyMaxLimit := policy.max_claim_amount
    reimbursementCapped := capped
    reimbursementPercentage := if 0 < totalBill then totalReimbursement / totalBill * 100 else 0
    policyApplied := policy.name }

/-! ## Enhanced matcher (`unwanted/backend/medicine_matcher.py`) -/

/-- A medicine mention dict as produced by
`MedicineMatchingService.extract_medicine_names` (unwanted tree): the fields
`match_medicines_across_documents` reads. Extraction always sets
`generic_name`, so `bill_med.get('generic_name', bill_med['name'])` is the
`generic_name` field. -/
structure Mention where
  name : String
  generic_name : String
  original_text : String := ""
  confidence : ℚ := 0
deriving DecidableEq

/-- Token parts of a medicine name: Python
`re.split(r'[+\s,]', name.lower())`, keeping empty pieces, then viewed as a
set (deduplicated). -/
def nameParts (s : String) : List String :=
  (((strLower s).toList.foldr
    (fun c (acc : List (List Char)) =>
      if c.isWhitespace ∨ c = '+' ∨ c = ',' then [] :: acc
      else
        match acc with
        | [] => [[c]]
        | h :: t => (c :: h) :: t)
    [[]]).map (fun l => String.mk l)).dedup

/-- Token-set Jaccard overlap of two medicine names (the `jaccard_sim` part of
`_calculate_enhanced_similarity`, unwanted/backend/medicine_matcher.py lines
336-342). -/
def jaccardSim (name1 name2 : String) : ℚ :=
  let parts1 := nameParts name1
  let parts2 := nameParts name2
  let inter := parts1.filter (fun x => parts2.contains x)
  let union := parts1 ++ parts2.filter (fun x => !parts1.contains x)
  if union.length = 0 then 0 else (inter.length : ℚ) / (union.length : ℚ)

/-- Modelled from the spec: the final combination step of
`_calculate_enhanced_similarity` is missing from the source snapshot (the file
is truncated at line 345, inside this function), so per spec §4.3 the combined
metric is the character-level ratio combined with the token-set Jaccard
overlap, "taking the maximum of the two". The character-level ratio
(stdlib `difflib`) stays an abstract parameter. -/
def enhanced_similarity (ratio : String → String → ℚ) (name1 name2 : String) : ℚ :=
  max (ratio name1 name2) (jaccardSim name1 name2)

/-- Modelled from the spec: `_is_common_otc` is missing from the source
snapshot (the file is truncated before its definition), so per spec §4.3 the
check is whether "the medicine name appears in a static OTC list"; the static
OTC list of this repository is `otc_medicines`
(unwanted/backend/reimbursement_engine.py), consulted by containment on the
lowercased name as the engine does. -/
def is_common_otc (medicineName : String) : Bool :=
  let medLower := strLower medicineName
  otc_medicines.any (fun otc => strContains medLower otc)

/-- One entry of the `matches` list built by
`match_medicines_across_documents`. -/
structure MatchInfo where
  bill_medicine : Mention
  prescription_medicine : Option Mention
  similarity : ℚ
  match_type : MatchType
  is_admissible : Bool
deriving DecidableEq

/-- The dict returned by `match_medicines_across_documents` (statistics
inlined).  `matched_prescription_indices` mirrors the local set of the same
name so that "never matched" is expressible; the Python function drops it on
return. -/
structure MatchOutcome where
  match_list : List MatchInfo
  admissible_medicines : List Mention
  non_admissible_medicines : List Mention
  unmatched_in_bill : List Mention
  prescribed_but_not_purchased : List Mention
  matched_prescription_indices : List Int
  total_bill_medicines : ℕ
  total_prescribed_medicines : ℕ
  admissible_count : ℕ
  non_admissible_count : ℕ
  compliance_percentage : ℚ
deriving DecidableEq

/-- The inner candidate scan of `match_medicines_across_documents` (lines
239-248): best prescription mention under `sim`, strict improvement only, with
initial state `(None, 0, -1)`. The candidate pool is the whole prescription
list — `matched_prescription_indices` is not consulted. -/
def best_prescription_match (sim : String → String → ℚ) (billName : String)
    (prescriptionMedicines : List Mention) : Option Mention × ℚ × Int :=
  prescriptionMedicines.enum.foldl
    (fun (acc : Option Mention × ℚ × Int) ip =>
      let prescName := strLower ip.2.generic_name
      let similarity := sim billName prescName
      if acc.2.1 < similarity then (some ip.2, similarity, (ip.1 : Int)) else acc)
    (none, 0, -1)

/-- Loop state of the main `for bill_med in bill_medicines` loop. -/
structure MatchState where
  match_list : List MatchInfo
  admissible : List Mention
  nonAdmissible : List Mention
  unmatchedBill : List Mention
  matchedIdx : List Int
deriving DecidableEq

/-- Insertion into the `matched_prescription_indices` set. -/
def addIdx (s : List Int) (i : Int) : List Int :=
  if s.contains i then s else s ++ [i]

/-- One iteration of the main loop of `match_medicines_across_documents`
(lines 232-301): tiered classification of a single bill mention. -/
def match_step (sim : String → String → ℚ) (isCommonOtc : String → Bool)
    (prescriptionMedicines : List Mention) (st : MatchState) (billMed : Mention) :
    MatchState :=
  let billName := strLower billMed.generic_name
  let best := best_prescription_match sim billName prescriptionMedicines
  let bestMatch := best.1
  let bestSimilarity := best.2.1
  let bestIndex := best.2.2
  if (8/10 : ℚ) ≤ bestSimilarity then
    let mi : MatchInfo :=
      ⟨billMed, bestMatch, bestSimilarity,
       if (19/20 : ℚ) < bestSimilarity then MatchType.exact else MatchType.high_confidence,
       true⟩
    { st with
      match_list := st.match_list ++ [mi]
      admissible := st.admissible ++ [billMed]
      matchedIdx := addIdx st.matchedIdx bestIndex }
  else if (3/5 : ℚ) ≤ bestSimilarity then
    let mi : MatchInfo :=
      ⟨billMed, bestMatch, bestSimilarity, MatchType.moderate_confidence, true⟩
    { st with
      match_list := st.match_list ++ [mi]
      admissible := st.admissible ++ [billMed]
      matchedIdx := addIdx st.matchedIdx bestIndex }
  else if isCommonOtc billMed.name then
    let mi : MatchInfo := ⟨billMed, none, 0, MatchType.otc, true⟩
    { st with
      match_list := st.match_list ++ [mi]
      admissible := st.admissible ++ [billMed] }
  else
    let mi : MatchInfo := ⟨billMed, none, bestSimilarity, MatchType.no_match, false⟩
    { st with
      match_list := st.match_list ++ [mi]
      nonAdmissible := st.nonAdmissible ++ [billMed]
      unmatchedBill := st.unmatchedBill ++ [billMed] }

/-- `match_medicines_across_documents`
(unwanted/backend/medicine_matcher.py lines 214-327), parametrised by the
similarity metric `sim` (see `enhanced_similarity`) and the OTC predicate
`isCommonOtc` (see `is_common_otc`). -/
def match_medicines_across_documents (sim : String → String → ℚ)
    (isCommonOtc : String → Bool)
    (billMedicines prescriptionMedicines : List Mention) : MatchOutcome :=
  let st := billMedicines.foldl (match_step sim isCommonOtc prescriptionMedicines)
    ⟨[], [], [], [], []⟩
  let unmatchedPrescription :=
    (prescriptionMedicines.enum.filter
      (fun ip => !st.matchedIdx.contains ((ip.1 : Int)))).map (fun ip => ip.2)
  let totalBillItems := if billMedicines = [] then 1 else billMedicines.length
  { match_list := st.match_list
    admissible_medicines := st.admissible
    non_admissible_medicines := st.nonAdmissible
    unmatched_in_bill := st.unmatchedBill
    prescribed_but_not_purchased := unmatchedPrescription
    matched_prescription_indices := st.matchedIdx
    total_bill_medicines := billMedicines.length
    total_prescribed_medicines := prescriptionMedicines.length
    admissible_count := st.admissible.length
    non_admissible_count := st.nonAdmissible.length
    compliance_percentage := ((st.admissible.length : ℚ) / (totalBillItems : ℚ)) * 100 }

/-- The confidence sum of `extract_medicine_names`
(unwanted/backend/medicine_matcher.py lines 130-143): +0.5 for a known
medicine, +0.3 for a form indicator, +0.2 for a dosage pattern. -/
def extraction_confidence (knownMedicine hasForm hasDosage : Bool) : ℚ :=
  (if knownMedicine then 1/2 else 0) + (if hasForm then 3/10 else 0) +
    (if hasDosage then 1/5 else 0)

/-- The stored confidence of an emitted mention: `min(confidence, 1.0)`
(line 159). -/
def stored_confidence (knownMedicine hasForm hasDosage : Bool) : ℚ :=
  min (extraction_confidence knownMedicine hasForm hasDosage) 1

/-- The acceptance guard of `extract_medicine_names` (line 146): a line is
considered for emission only when `confidence >= 0.3` (emission further
requires a non-empty, not-yet-seen name). -/
def line_accepted (knownMedicine hasForm hasDosage : Bool) : Bool :=
  (3/10 : ℚ) ≤ extraction_confidence knownMedicine hasForm hasDosage

/-! ## Simple matcher (`backend/medicine_matcher.py`) -/

/-- `_calculate_confidence` (backend/medicine_matcher.py lines 81-97): the
three signal weights, a +0.1 bonus when at least two signals fire, clamped to
1.0. The `text` argument is unused by the source body and kept for the
signature. -/
def calculate_confidence (text : String) (hasForm hasKnown hasDosage : Bool) : ℚ :=
  let score := (if hasKnown then 1/2 else 0) + (if hasForm then 3/10 else 0) +
    (if hasDosage then 1/5 else 0)
  let indicators : ℕ := (if hasForm then 1 else 0) + (if hasKnown then 1 else 0) +
    (if hasDosage then 1 else 0)
  let score := if 2 ≤ indicators then score + 1/10 else score
  min score 1

/-- The emission guard of `extract_medicine_names`
(backend/medicine_matcher.py line 52): a line is processed when any single
signal fires. -/
def backend_line_considered (hasForm hasKnown hasDosage : Bool) : Bool :=
  hasForm || hasKnown || hasDosage

/-! ## Amount allocation -/

/-- The presence-based weight table of `categorize_amounts`
(backend/app/services/extraction_service.py lines 533-546), applied when the
keyword scans found nothing. -/
def allocation_table (total : ℚ) (hasMedicines hasTests : Bool) : ℚ × ℚ × ℚ :=
  if hasMedicines ∧ hasTests then (total * (1/2), total * (3/10), total * (1/5))
  else if hasMedicines then (total * (7/10), 0, total * (3/10))
  else if hasTests then (0, total * (3/5), total * (2/5))
  else (0, 0, total)

/-- The pre-rounding stage of `categorize_amounts`: fall back to the weight
table when all three keyword sums are zero (extraction_service.py line 533),
then proportionally rescale when the category sum exceeds `total`
(lines 549-554). -/
def categorize_preround (medicineKw testKw consultationKw total : ℚ)
    (hasMedicines hasTests : Bool) : ℚ × ℚ × ℚ :=
  let raw :=
    if medicineKw = 0 ∧ testKw = 0 ∧ consultationKw = 0 then
      allocation_table total hasMedicines hasTests
    else (medicineKw, testKw, consultationKw)
  let calculatedTotal := raw.1 + raw.2.1 + raw.2.2
  if total < calculatedTotal ∧ 0 < calculatedTotal then
    (raw.1 * (total / calculatedTotal), raw.2.1 * (total / calculatedTotal),
     raw.2.2 * (total / calculatedTotal))
  else raw

/-- `categorize_amounts` (extraction_service.py lines 487-556), parametrised
by the keyword-anchored amount sums the regex passes accumulated
(`medicine_amount`, `test_amount`, `consultation_amount` after lines 493-530):
fall back to the weight table when all three are zero, proportionally rescale
when the sum exceeds `total`, and round each amount to two decimals only at
the end (line 556). -/
def categorize_amounts (medicineKw testKw consultationKw total : ℚ)
    (hasMedicines hasTests : Bool) : ℚ × ℚ × ℚ :=
  let scaled := categorize_preround medicineKw testKw consultationKw total
    hasMedicines hasTests
  (round2 scaled.1, round2 scaled.2.1, round2 scaled.2.2)

/-- `categorize_expenses` (backend/claim_parser.py lines 206-238): 40% of the
summed amounts to medicines when any medicine was found, 30% to tests when any
test was found, the remainder to consultation. -/
def categorize_expenses (medicines tests : List String) (amounts : List ℚ) :
    ℚ × ℚ × ℚ :=
  if amounts = [] then (0, 0, 0)
  else
    let totalAmount := amounts.sum
    let medicine := if medicines ≠ [] then totalAmount * (2/5) else 0
    let test := if tests ≠ [] then totalAmount * (3/10) else 0
    let consultation := totalAmount - medicine - test
    let consultation :=
      if medicines = [] ∧ tests = [] then totalAmount else consultation
    (medicine, test, consultation)

/-! ## Claim parser (`backend/claim_parser.py`) -/

/-- `ClaimItem` dataclass (claim_parser.py lines 14-39). -/
structure ClaimItem where
  bill_no : String
  my_date : String
  amount_spent_on_medicine : ℚ
  amount_spent_on_test : ℚ
  amount_spent_on_consultation : ℚ
  medicine_names : List String
  test_names : List String
  doctor_name : String
  hospital_name : String
  reimbursement_amount : ℚ
  editable : Bool
deriving DecidableEq

/-- The pure regex-based text helpers of `MedicalClaimParser` (`clean_text`,
`extract_medicines`, `extract_tests`, `extract_amounts`, `extract_dates`,
`extract_doctor_hospital`): each is a deterministic function of its text
argument only (they consult nothing but `re` and the static pattern lists),
abstracted here as a bundle of string functions. -/
structure TextHeuristics where
  clean_text : String → String
  extract_medicines : String → List String
  extract_tests : String → List String
  extract_amounts : String → List ℚ
  extract_dates : String → List String
  extract_doctor_hospital : String → String × String

/-- The two `datetime.now().strftime(...)` readings taken inside
`parse_medical_claim`: the `%Y%m%d%H%M%S` stamp used for `bill_no` and the
`%d/%m/%Y` string used as the `my_date` fallback. -/
structure Clock where
  timestamp : String
  todayStr : String
deriving DecidableEq

/-- `parse_medical_claim` (claim_parser.py lines 240-272), with the wall clock
made an explicit argument. -/
def parse_medical_claim (ops : TextHeuristics) (now : Clock) (rawText : String) :
    ClaimItem :=
  let cleanedText := ops.clean_text rawText
  let medicines := ops.extract_medicines cleanedText
  let tests := ops.extract_tests cleanedText
  let amounts := ops.extract_amounts cleanedText
  let dates := ops.extract_dates cleanedText
  let dh := ops.extract_doctor_hospital cleanedText
  let expenses := categorize_expenses medicines tests amounts
  { bill_no := "BILL-" ++ now.timestamp
    my_date := match dates with
      | d :: _ => d
      | [] => now.todayStr
    amount_spent_on_medicine := expenses.1
    amount_spent_on_test := expenses.2.1
    amount_spent_on_consultation := expenses.2.2
    medicine_names := medicines
    test_names := tests
    doctor_name := dh.1
    hospital_name := dh.2
    reimbursement_amount := if amounts ≠ [] then amounts.sum * (4/5) else 0
    editable := true }

/-- A concrete `TextHeuristics` instance that coincides with the source's
regex helpers on the empty document: every extraction pattern of
`MedicalClaimParser` needs at least one character, so on `""` the source
returns no medicines, tests, amounts or dates, an empty doctor and hospital,
and `clean_text` is the identity. -/
def emptyTextHeuristics : TextHeuristics :=
  ⟨fun s => s, fun _ => [], fun _ => [], fun _ => [], fun _ => [],
   fun _ => ("", "")⟩

/-! ## Simple matching service (`backend/app/services/matching_service.py`) -/

/-- The dict returned by `simple_match_medicines` (the per-medicine status
dicts carry only the medicine name and a status determined by the list they
are in). -/
structure SimpleMatchResult where
  admissible : List String
  nonAdmissible : List String
  complianceScore : ℚ
deriving DecidableEq

/-- `simple_match_medicines` (matching_service.py lines 7-23): exact list
membership, compliance score over `max(len(bill_meds), 1)`. -/
def simple_match_medicines (billMeds rxMeds : List String) : SimpleMatchResult :=
  let admissible := billMeds.filter (fun med => rxMeds.contains med)
  let nonAdmissible := billMeds.filter (fun med => !rxMeds.contains med)
  ⟨admissible, nonAdmissible,
   ((admissible.length : ℚ) / ((max billMeds.length 1 : ℕ) : ℚ)) * 100⟩

/-- A minimal mention used in concrete runs. -/
def cexMention : Mention := ⟨"abc", "abc", "", 0⟩

/-- A degenerate character-level ratio; the token-set Jaccard part of the
combined similarity already drives the runs below. -/
def zeroCharRatio : String → String → ℚ := fun _ _ => 0

/-! ## Helper lemmas -/

theorem ratFloor_eq_floor (q : ℚ) : q.floor = ⌊q⌋ := by
  rw [Rat.floor_def', Rat.floor_def]

theorem roundHalfEven_bounds (q : ℚ) :
    q - 1/2 ≤ (roundHalfEven q : ℚ) ∧ (roundHalfEven q : ℚ) ≤ q + 1/2 := by
  have h1 : ((⌊q⌋ : ℤ) : ℚ) ≤ q := Int.floor_le q
  have h2 : q < ⌊q⌋ + 1 := Int.lt_floor_add_one q
  simp only [roundHalfEven, ratFloor_eq_floor]
  split_ifs with ha hb hc <;> constructor <;> push_cast at * <;> linarith

theorem round2_bounds (q : ℚ) : q - 1/200 ≤ round2 q ∧ round2 q ≤ q + 1/200 := by
  obtain ⟨h1, h2⟩ := roundHalfEven_bounds (100 * q)
  unfold round2
  constructor
  · rw [le_div_iff₀ (by norm_num : (0:ℚ) < 100)]
    linarith
  · rw [div_le_iff₀ (by norm_num : (0:ℚ) < 100)]
    linarith

/-- The sum of three two-decimal roundings is a multiple of `1/100`, so when
the unrounded sum is at most a total that is itself a multiple of `1/100`,
rounding can push the sum at most `1/100` past the total. -/
theorem round2_sum_le {x y z T : ℚ} (n : ℤ) (hT : T = (n : ℚ) / 100)
    (h : x + y + z ≤ T) : round2 x + round2 y + round2 z ≤ T + 1/100 := by
  obtain ⟨hx1, hx2⟩ := round2_bounds x
  obtain ⟨hy1, hy2⟩ := round2_bounds y
  obtain ⟨hz1, hz2⟩ := round2_bounds z
  set a := roundHalfEven (100 * x) with ha
  set b := roundHalfEven (100 * y) with hb
  set c := roundHalfEven (100 * z) with hc
  have hsum : round2 x + round2 y + round2 z = ((a + b + c : ℤ) : ℚ) / 100 := by
    unfold round2
    push_cast
    ring
  have habc : ((a + b + c : ℤ) : ℚ) ≤ (n : ℚ) + 3/2 := by
    have hle : ((a + b + c : ℤ) : ℚ) / 100 ≤ T + 3/200 := by
      rw [← hsum]
      linarith
    rw [hT, div_le_iff₀ (by norm_num : (0:ℚ) < 100)] at hle
    push_cast at hle ⊢
    linarith
  have hint : a + b + c ≤ n + 1 := by
    have hlt : ((a + b + c : ℤ) : ℚ) < ((n + 2 : ℤ) : ℚ) := by push_cast at habc ⊢; linarith
    have hlt2 : a + b + c < n + 2 := by exact_mod_cast hlt
    omega
  rw [hsum, hT, div_le_iff₀ (by norm_num : (0:ℚ) < 100)]
  have hcast : ((a + b + c : ℤ) : ℚ) ≤ ((n + 1 : ℤ) : ℚ) := by exact_mod_cast hint
  push_cast at hcast ⊢
  linarith

theorem allocation_table_sum (T : ℚ) (hM hT : Bool) :
    (allocation_table T hM hT).1 + (allocation_table T hM hT).2.1 +
      (allocation_table T hM hT).2.2 = T := by
  unfold allocation_table
  split_ifs <;> ring

/-- The pre-rounding category amounts never sum past the observed total. -/
theorem categorize_preround_sum_le (mKw tKw cKw T : ℚ)
    (hm : 0 ≤ mKw) (ht : 0 ≤ tKw) (hc : 0 ≤ cKw) (hM hT : Bool) :
    (categorize_preround mKw tKw cKw T hM hT).1 +
      (categorize_preround mKw tKw cKw T hM hT).2.1 +
      (categorize_preround mKw tKw cKw T hM hT).2.2 ≤ T := by
  simp only [categorize_preround]
  by_cases hz : mKw = 0 ∧ tKw = 0 ∧ cKw = 0
  · rw [if_pos hz]
    have hsum := allocation_table_sum T hM hT
    split_ifs with hcond
    · have h1 := hcond.1
      rw [hsum] at h1
      exact absurd h1 (lt_irrefl T)
    · linarith [hsum]
  · rw [if_neg hz]
    have hpos : 0 < mKw + tKw + cKw := by
      rcases lt_or_eq_of_le hm with h | h
      · linarith
      rcases lt_or_eq_of_le ht with h2 | h2
      · linarith
      rcases lt_or_eq_of_le hc with h3 | h3
      · linarith
      · exact absurd ⟨h.symm, h2.symm, h3.symm⟩ hz
    dsimp only
    split_ifs with hcond
    · dsimp only
      have hne : mKw + tKw + cKw ≠ 0 := ne_of_gt hpos
      have heq : mKw * (T / (mKw + tKw + cKw)) + tKw * (T / (mKw + tKw + cKw)) +
          cKw * (T / (mKw + tKw + cKw)) = T := by
        field_simp
        ring
      linarith [heq]
    · dsimp only
      rcases not_and_or.mp hcond with h | h
      · linarith [not_lt.mp h]
      · exact absurd hpos h

/-- Each iteration of the matcher loop files the bill mention into exactly one
of the admissible / non-admissible lists. -/
theorem match_step_counts (sim : String → String → ℚ) (otcCheck : String → Bool)
    (prescriptionMedicines : List Mention) (st : MatchState) (billMed : Mention) :
    (match_step sim otcCheck prescriptionMedicines st billMed).admissible.length +
      (match_step sim otcCheck prescriptionMedicines st billMed).nonAdmissible.length =
    st.admissible.length + st.nonAdmissible.length + 1 := by
  simp only [match_step]
  split_ifs <;> simp [List.length_append] <;> omega

/-- Folding the matcher loop over a bill adds exactly one classification per
bill mention. -/
theorem match_fold_counts (sim : String → String → ℚ) (otcCheck : String → Bool)
    (prescriptionMedicines : List Mention) (billMedicines : List Mention)
    (st : MatchState) :
    ((billMedicines.foldl (match_step sim otcCheck prescriptionMedicines) st).admissible.length +
      (billMedicines.foldl (match_step sim otcCheck prescriptionMedicines) st).nonAdmissible.length) =
    st.admissible.length + st.nonAdmissible.length + billMedicines.length := by
  induction billMedicines generalizing st with
  | nil => simp
  | cons b bs ih =>
    simp only [List.foldl_cons, List.length_cons]
    rw [ih]
    rw [match_step_counts]
    omega

/-- A ratio of a count over a positive bound, times 100, stays within
[0, 100]. -/
theorem compliance_bound {a n : ℕ} (h : a ≤ n) (hn : 0 < n) :
    0 ≤ ((a : ℚ) / (n : ℚ)) * 100 ∧ ((a : ℚ) / (n : ℚ)) * 100 ≤ 100 := by
  have h0 : (0 : ℚ) < (n : ℚ) := by exact_mod_cast hn
  constructor
  · positivity
  · have hle : (a : ℚ) / (n : ℚ) ≤ 1 := by
      rw [div_le_one h0]
      exact_mod_cast h
    linarith

/-- Splitting a list by a Boolean predicate partitions its length. -/
theorem filter_partition_length {α : Type} (l : List α) (p : α → Bool) :
    (l.filter p).length + (l.filter (fun x => !p x)).length = l.length :=
  (List.length_eq_length_filter_add p).symm

/-! ## Claim theorems -/

/-- C1: in every comparison run, each bill medicine mention is classified into
exactly one of the admissible / non-admissible lists, so their lengths sum to
the number of bill mentions — both in `_compare_medicines` of the
reimbursement engine and in `match_medicines_across_documents` of the enhanced
matcher, for any similarity metric and OTC predicate. -/
theorem C1_admissible_partition :
    (∀ (ratio : String → String → ℚ) (bill presc : List BillMed)
      (policy : ReimbursementPolicy),
      (compare_medicines ratio bill presc policy).admissible.length +
        (compare_medicines ratio bill presc policy).nonAdmissible.length =
        bill.length) ∧
    (∀ (sim : String → String → ℚ) (otcCheck : String → Bool)
      (bill presc : List Mention),
      (match_medicines_across_documents sim otcCheck bill presc).admissible_medicines.length +
        (match_medicines_across_documents sim otcCheck bill presc).non_admissible_medicines.length =
        bill.length) := by
  constructor
  · intro ratio bill presc policy
    simp only [compare_medicines]
    exact (filter_partition_length
      (bill.map (classify_bill_med ratio policy
        ((presc.map (fun m => strLower m.name)).dedup)))
      (fun i => i.admissible)).trans
      (List.length_map _ _)
  · intro sim otcCheck bill presc
    simp only [match_medicines_across_documents]
    rw [match_fold_counts]
    simp

/-- C2: every reimbursement summary is capped by `policy.max_claim_amount`,
and the `reimbursement_capped` flag is set exactly when the uncapped sum of
the medicine, test and consultation reimbursements exceeds the cap. -/
theorem C2_cap_and_flag (billClaim : BillClaim) (cr : ComparisonResult)
    (policy : ReimbursementPolicy) :
    (calculate_reimbursement billClaim cr policy).totalReimbursement ≤
      policy.max_claim_amount ∧
    ((calculate_reimbursement billClaim cr policy).reimbursementCapped = true ↔
      policy.max_claim_amount <
        (calculate_reimbursement billClaim cr policy).medicineReimbursement +
          (calculate_reimbursement billClaim cr policy).testReimbursement +
          (calculate_reimbursement billClaim cr policy).consultationReimbursement) := by
  simp only [calculate_reimbursement]
  split_ifs with h
  · exact ⟨le_refl _, by simpa using h⟩
  · exact ⟨le_of_not_lt h, by simpa using h⟩

/-- C8: an unknown policy name silently selects the `"standard"` policy, while
the three known names select their own entries. -/
theorem C8_unknown_policy_fallback :
    (∀ s : String, s ≠ "standard" → s ≠ "premium" → s ≠ "basic" →
      getPolicy s = standardPolicy) ∧
    getPolicy "standard" = standardPolicy ∧
    getPolicy "premium" = premiumPolicy ∧
    getPolicy "basic" = basicPolicy := by
  refine ⟨fun s h1 h2 h3 => ?_, rfl, rfl, rfl⟩
  simp [getPolicy, policiesGet, h1, h2, h3]

/-- C8 witness: the unrecognised name "gold" falls back to the standard
policy. -/
theorem C8_unknown_policy_fallback_witness : getPolicy "gold" = standardPolicy :=
  C8_unknown_policy_fallback.1 "gold" (by decide) (by decide) (by decide)

/-- C10: every compliance-score computation is total — the divisor is forced
to at least 1 — and yields a score in [0, 100], with an empty bill list giving
0; this holds in the engine's `_compare_medicines`, in the enhanced matcher's
`match_medicines_across_documents`, and in `simple_match_medicines`. -/
theorem C10_compliance_score_safe :
    (∀ (ratio : String → String → ℚ) (bill presc : List BillMed)
      (policy : ReimbursementPolicy),
      0 ≤ (compare_medicines ratio bill presc policy).complianceScore ∧
      (compare_medicines ratio bill presc policy).complianceScore ≤ 100) ∧
    (∀ (ratio : String → String → ℚ) (presc : List BillMed)
      (policy : ReimbursementPolicy),
      (compare_medicines ratio [] presc policy).complianceScore = 0) ∧
    (∀ (sim : String → String → ℚ) (otcCheck : String → Bool)
      (bill presc : List Mention),
      0 ≤ (match_medicines_across_documents sim otcCheck bill presc).compliance_percentage ∧
      (match_medicines_across_documents sim otcCheck bill presc).compliance_percentage ≤ 100) ∧
    (∀ (sim : String → String → ℚ) (otcCheck : String → Bool)
      (presc : List Mention),
      (match_medicines_across_documents sim otcCheck [] presc).compliance_percentage = 0) ∧
    (∀ billMeds rxMeds : List String,
      0 ≤ (simple_match_medicines billMeds rxMeds).complianceScore ∧
      (simple_match_medicines billMeds rxMeds).complianceScore ≤ 100) ∧
    (∀ rxMeds : List String,
      (simple_match_medicines [] rxMeds).complianceScore = 0) := by
  refine ⟨?_, ?_, ?_, ?_, ?_, ?_⟩
  · intro ratio bill presc policy
    simp only [compare_medicines]
    by_cases hb : bill = []
    · subst hb
      norm_num
    · rw [if_neg hb]
      refine compliance_bound ?_ (List.length_pos.mpr hb)
      exact le_trans (List.length_filter_le _ _) (le_of_eq (List.length_map _ _))
  · intro ratio presc policy
    simp only [compare_medicines]
    norm_num
  · intro sim otcCheck bill presc
    simp only [match_medicines_across_documents]
    by_cases hb : bill = []
    · subst hb
      norm_num
    · rw [if_neg hb]
      refine compliance_bound ?_ (List.length_pos.mpr hb)
      have hcnt := match_fold_counts sim otcCheck presc bill ⟨[], [], [], [], []⟩
      simp at hcnt
      omega
  · intro sim otcCheck presc
    simp only [match_medicines_across_documents]
    norm_num
  · intro billMeds rxMeds
    simp only [simple_match_medicines]
    refine compliance_bound ?_ ?_
    · exact le_trans (List.length_filter_le _ _) (le_max_left _ _)
    · omega
  · intro rxMeds
    simp only [simple_match_medicines]
    norm_num

theorem classifyTail_otc_necessary (policy : ReimbursementPolicy) (medName billName : String) :
    (classifyTail policy medName billName).match_type = MatchType.otc →
    policy.allows_otc_medicines = true ∧ is_otc_medicine medName = true := by
  simp only [classifyTail]
  split_ifs with h1 h2
  · intro _
    exact Bool.and_eq_true_iff.mp h1
  · intro h
    exact absurd h (by simp)
  · intro h
    exact absurd h (by simp)

theorem classify_otc_necessary (ratio : String → String → ℚ)
    (policy : ReimbursementPolicy) (prescribedNames : List String) (billMed : BillMed) :
    (classify_bill_med ratio policy prescribedNames billMed).match_type = MatchType.otc →
    policy.allows_otc_medicines = true ∧
      is_otc_medicine (strLower billMed.name) = true := by
  simp only [classify_bill_med]
  by_cases hc : prescribedNames.contains (strLower billMed.name)
  · rw [if_pos hc]
    intro h
    exact absurd h (by simp)
  · rw [if_neg hc]
    cases hff : find_fuzzy_match ratio (strLower billMed.name) prescribedNames with
    | none => exact classifyTail_otc_necessary policy _ _
    | some fm =>
      dsimp only
      split_ifs with hgt
      · intro h
        exact absurd h (by simp)
      · exact classifyTail_otc_necessary policy _ _

theorem classify_medicine_name (ratio : String → String → ℚ)
    (policy : ReimbursementPolicy) (prescribedNames : List String) (billMed : BillMed) :
    (classify_bill_med ratio policy prescribedNames billMed).medicine = billMed.name := by
  simp only [classify_bill_med, classifyTail]
  by_cases hc : prescribedNames.contains (strLower billMed.name)
  · rw [if_pos hc]
  · rw [if_neg hc]
    cases hff : find_fuzzy_match ratio (strLower billMed.name) prescribedNames with
    | none => split_ifs <;> rfl
    | some fm =>
      dsimp only
      split_ifs <;> rfl

example (ratio : String → String → ℚ) :
      (compare_medicines ratio [⟨"Paracetamol", "", 0⟩] [] standardPolicy).comparisonDetails =
        [⟨"Paracetamol", MatchType.no_match, false⟩] := by
  have hnr : is_non_reimbursable (strLower "Paracetamol") = false := by decide
  simp [compare_medicines, classify_bill_med, find_fuzzy_match, classifyTail, hnr,
    standardPolicy]

/-- C3: in the policy-aware comparator `_compare_medicines`, a bill mention is
classified `otc` (admissible) only when the applied policy allows OTC
medicines and the (lowercased) name matches the static OTC list; and the
scenario-C run — bill mention "Paracetamol", empty prescription list, policy
"standard" — is classified `no_match` and non-admissible, for any character
ratio. -/
theorem C3_otc_tier_gated :
    (∀ (ratio : String → String → ℚ) (bill presc : List BillMed)
      (policy : ReimbursementPolicy) (info : MedInfo),
      info ∈ (compare_medicines ratio bill presc policy).comparisonDetails →
      info.match_type = MatchType.otc →
      policy.allows_otc_medicines = true ∧
        is_otc_medicine (strLower info.medicine) = true) ∧
    (∀ ratio : String → String → ℚ,
      (compare_medicines ratio [⟨"Paracetamol", "", 0⟩] [] standardPolicy).comparisonDetails =
        [⟨"Paracetamol", MatchType.no_match, false⟩] ∧
      (compare_medicines ratio [⟨"Paracetamol", "", 0⟩] [] standardPolicy).nonAdmissible =
        [⟨"Paracetamol", MatchType.no_match, false⟩] ∧
      (compare_medicines ratio [⟨"Paracetamol", "", 0⟩] [] standardPolicy).admissible = []) := by
  constructor
  · intro ratio bill presc policy info hmem hotc
    simp only [compare_medicines] at hmem
    obtain ⟨billMed, hb, rfl⟩ := List.mem_map.mp hmem
    rw [classify_medicine_name]
    exact classify_otc_necessary ratio policy _ billMed hotc
  · intro ratio
    have hnr : is_non_reimbursable (strLower "Paracetamol") = false := by decide
    refine ⟨?_, ?_, ?_⟩ <;>
      simp [compare_medicines, classify_bill_med, find_fuzzy_match, classifyTail, hnr,
        standardPolicy]

/-- C3 witness: the OTC-classified mention "Vitamin" under the premium
policy indeed has the policy OTC allowance and an OTC-list name. -/
theorem C3_otc_tier_gated_witness :
    premiumPolicy.allows_otc_medicines = true ∧
      is_otc_medicine (strLower (MedInfo.mk "Vitamin" MatchType.otc true).medicine) = true :=
  C3_otc_tier_gated.1 (fun _ _ => 0) [⟨"Vitamin", "", 0⟩] [] premiumPolicy
    ⟨"Vitamin", MatchType.otc, true⟩ (by decide) (by decide)

/-- C5 counterexample: `_calculate_confidence` of backend/medicine_matcher.py
at (form, known, dosage) = (true, false, true) returns 0.6, not the claimed
sum of fired signals 0.3 + 0.2 = 0.5: the code adds a +0.1 bonus when at least
two signals fire. -/
theorem C5_confidence_cex :
    calculate_confidence "" true false true = 3/5 ∧ (3/5 : ℚ) ≠ 3/10 + 1/5 := by
  constructor
  · norm_num [calculate_confidence]
  · norm_num

/-- C5 amended: in the unwanted-tree `extract_medicine_names` the stored
confidence is exactly the clamped signal sum and a line is accepted only when
that confidence reaches 0.3; the backend `_calculate_confidence` instead adds
a +0.1 bonus when at least two signals fire, and the backend extraction
guard fires on any single signal, so a dosage-only line is considered at
confidence 0.2 < 0.3. -/
theorem C5_confidence_amended :
    (∀ known form dosage : Bool,
      stored_confidence known form dosage =
        min ((if known then (1:ℚ)/2 else 0) + (if form then 3/10 else 0) +
          (if dosage then 1/5 else 0)) 1 ∧
      (line_accepted known form dosage = true ↔
        (3/10 : ℚ) ≤ stored_confidence known form dosage)) ∧
    (∀ (text : String) (form known dosage : Bool),
      calculate_confidence text form known dosage =
        min (((if known then (1:ℚ)/2 else 0) + (if form then 3/10 else 0) +
          (if dosage then 1/5 else 0)) +
          (if 2 ≤ ((if form then (1:ℕ) else 0) + (if known then 1 else 0) +
            (if dosage then 1 else 0)) then (1:ℚ)/10 else 0)) 1) ∧
    (backend_line_considered false false true = true ∧
      calculate_confidence "" false false true < 3/10) := by
  refine ⟨?_, ?_, ?_, ?_⟩
  · intro known form dosage
    cases known <;> cases form <;> cases dosage <;>
      constructor <;>
        norm_num [stored_confidence, extraction_confidence, line_accepted, min_def]
  · intro text form known dosage
    cases form <;> cases known <;> cases dosage <;>
      norm_num [calculate_confidence, min_def]
  · rfl
  · norm_num [calculate_confidence, min_def]

theorem roundHalfEven_intCast (n : ℤ) : roundHalfEven (n : ℚ) = n := by
  simp [roundHalfEven, ratFloor_eq_floor]

theorem round2_eq_self {q : ℚ} (n : ℤ) (h : 100 * q = (n : ℚ)) : round2 q = q := by
  unfold round2
  rw [h, roundHalfEven_intCast]
  rw [eq_comm, eq_div_iff (by norm_num : (100:ℚ) ≠ 0)]
  linarith

theorem nameParts_ne_nil (s : String) : nameParts s ≠ [] := by
  unfold nameParts
  rw [ne_eq, List.dedup_eq_nil, List.map_eq_nil]
  induction (strLower s).toList with
  | nil => simp
  | cons c cs ih =>
    simp only [List.foldr_cons]
    split_ifs
    · simp
    · cases h : List.foldr _ [[]] cs with
      | nil => simp
      | cons hd tl => simp

theorem jaccardSim_self (s : String) : jaccardSim s s = 1 := by
  simp only [jaccardSim]
  have h1 : (nameParts s).filter (fun x => (nameParts s).contains x) = nameParts s := by
    apply List.filter_eq_self.mpr
    intro a ha
    exact List.elem_eq_true_of_mem ha
  have h2 : (nameParts s).filter (fun x => !(nameParts s).contains x) = [] := by
    apply List.filter_eq_nil.mpr
    intro a ha
    have hc : (nameParts s).contains a = true := List.elem_eq_true_of_mem ha
    simp [hc]
    exact ha
  rw [h1, h2, List.append_nil]
  rw [if_neg (by simp [nameParts_ne_nil s])]
  rw [div_self]
  exact_mod_cast (by simp [List.length_eq_zero, nameParts_ne_nil s] : ((nameParts s).length : ℚ) ≠ 0)


theorem strLower_abc : strLower "abc" = "abc" := by decide

theorem enhanced_similarity_abc :
    enhanced_similarity zeroCharRatio "abc" "abc" = 1 := by
  simp [enhanced_similarity, jaccardSim_self, zeroCharRatio]

set_option maxHeartbeats 2000000 in
theorem best_match_abc :
    best_prescription_match (enhanced_similarity zeroCharRatio) "abc" [cexMention] =
      (some cexMention, 1, 0) := by
  simp [best_prescription_match, cexMention, List.enum, List.enumFrom, strLower_abc,
    enhanced_similarity_abc]

set_option maxHeartbeats 2000000 in
theorem match_step_abc (st : MatchState) :
    match_step (enhanced_similarity zeroCharRatio) is_common_otc [cexMention] st cexMention =
      { st with
        match_list := st.match_list ++ [⟨cexMention, some cexMention, 1, MatchType.exact, true⟩]
        admissible := st.admissible ++ [cexMention]
        matchedIdx := addIdx st.matchedIdx 0 } := by
  simp [match_step, show cexMention.generic_name = "abc" from rfl, strLower_abc,
    best_match_abc, show ((8:ℚ)/10 ≤ 1) from by norm_num,
    show ((19:ℚ)/20 < 1) from by norm_num]

/-- C4 counterexample: two identical bill mentions "abc" against the single
prescription mention "abc" are both tier-1 matched (`exact`) and both paired
with the same (only) prescription entry, whose index is recorded once —
matched prescription entries are not excluded from the candidate pool of
later bill mentions. -/
theorem C4_shared_prescription_cex :
    ((match_medicines_across_documents (enhanced_similarity zeroCharRatio) is_common_otc
        [cexMention, cexMention] [cexMention]).match_list.map
      (fun mi => mi.prescription_medicine)) = [some cexMention, some cexMention] ∧
    ((match_medicines_across_documents (enhanced_similarity zeroCharRatio) is_common_otc
        [cexMention, cexMention] [cexMention]).match_list.map
      (fun mi => mi.match_type)) = [MatchType.exact, MatchType.exact] ∧
    (match_medicines_across_documents (enhanced_similarity zeroCharRatio) is_common_otc
        [cexMention, cexMention] [cexMention]).matched_prescription_indices = [0] := by
  simp only [match_medicines_across_documents, List.foldl_cons, List.foldl_nil,
    match_step_abc]
  simp [addIdx]

/-- C4 amended: `match_medicines_across_documents` records matched
prescription indices but does not exclude them from the candidate pool, so a
prescription entry can be paired with several bill mentions; after the run,
every prescription mention whose index was never matched is reported as
prescribed-but-not-purchased. -/
theorem C4_unmatched_reported :
    ∀ (sim : String → String → ℚ) (otcCheck : String → Bool)
      (bill presc : List Mention) (i : ℕ) (hi : i < presc.length),
      (match_medicines_across_documents sim otcCheck bill
          presc).matched_prescription_indices.contains (i : Int) = false →
      presc.get ⟨i, hi⟩ ∈
        (match_medicines_across_documents sim otcCheck bill
          presc).prescribed_but_not_purchased := by
  intro sim otcCheck bill presc i hi hnc
  simp only [match_medicines_across_documents] at hnc ⊢
  apply List.mem_map.mpr
  refine ⟨(i, presc.get ⟨i, hi⟩), ?_, rfl⟩
  apply List.mem_filter.mpr
  constructor
  · apply List.mk_mem_enum_iff_getElem?.mpr
    simp [List.getElem?_eq_getElem hi]
  · simpa using hnc

/-- C4 witness: with an empty bill, the only prescription mention is
reported as prescribed-but-not-purchased. -/
theorem C4_unmatched_reported_witness :
    [cexMention].get ⟨0, by norm_num⟩ ∈
      (match_medicines_across_documents zeroCharRatio (fun _ => false) []
        [cexMention]).prescribed_but_not_purchased :=
  C4_unmatched_reported zeroCharRatio (fun _ => false) [] [cexMention] 0 (by norm_num)
    (by decide)

/-- C6 counterexample: `categorize_expenses` of backend/claim_parser.py with
medicines present, no tests, and amounts summing to 1000 allocates
(400, 0, 600), not the claimed 70%/0%/30% split (700, 0, 300). -/
theorem C6_expense_split_cex :
    categorize_expenses ["Paracetamol"] [] [1000] = (400, 0, 600) ∧
      ((400 : ℚ) ≠ 700 ∧ (600 : ℚ) ≠ 300) := by
  constructor
  · norm_num [categorize_expenses]
  · norm_num

/-- C6 amended: `categorize_amounts` of extraction_service.py, when the
keyword scans found nothing, splits by the 50/30/20, 70/0/30, 0/60/40,
0/0/100 table (and total = 1000 with medicines only yields exactly
(700, 0, 300)); `categorize_expenses` of claim_parser.py instead allocates
40% of the summed amounts to medicines and 30% to tests when present, with
consultation the remainder. -/
theorem C6_allocation_tables :
    (∀ T : ℚ,
      categorize_amounts 0 0 0 T true true =
        (round2 (T * (1/2)), round2 (T * (3/10)), round2 (T * (1/5))) ∧
      categorize_amounts 0 0 0 T true false =
        (round2 (T * (7/10)), round2 0, round2 (T * (3/10))) ∧
      categorize_amounts 0 0 0 T false true =
        (round2 0, round2 (T * (3/5)), round2 (T * (2/5))) ∧
      categorize_amounts 0 0 0 T false false = (round2 0, round2 0, round2 T)) ∧
    categorize_amounts 0 0 0 1000 true false = (700, 0, 300) ∧
    (∀ (m : String) (ms ts : List String) (t : String) (a : ℚ) (as : List ℚ),
      categorize_expenses (m :: ms) (t :: ts) (a :: as) =
        ((a :: as).sum * (2/5), (a :: as).sum * (3/10), (a :: as).sum * (3/10))) ∧
    (∀ (m : String) (ms : List String) (a : ℚ) (as : List ℚ),
      categorize_expenses (m :: ms) [] (a :: as) =
        ((a :: as).sum * (2/5), 0, (a :: as).sum * (3/5))) ∧
    (∀ (t : String) (ts : List String) (a : ℚ) (as : List ℚ),
      categorize_expenses [] (t :: ts) (a :: as) =
        (0, (a :: as).sum * (3/10), (a :: as).sum * (7/10))) ∧
    (∀ (a : ℚ) (as : List ℚ),
      categorize_expenses [] [] (a :: as) = (0, 0, (a :: as).sum)) ∧
    (∀ meds tests : List String, categorize_expenses meds tests [] = (0, 0, 0)) := by
  refine ⟨?_, ?_, ?_, ?_, ?_, ?_, ?_⟩
  · intro T
    refine ⟨?_, ?_, ?_, ?_⟩ <;>
        simp only [categorize_amounts, categorize_preround, allocation_table] <;>
        norm_num <;>
        split_ifs with h <;>
        first
          | (exfalso; linarith [h.1])
          | norm_num
  · have h700 : round2 (700 : ℚ) = 700 := round2_eq_self 70000 (by norm_num)
    have h0 : round2 (0 : ℚ) = 0 := round2_eq_self 0 (by norm_num)
    have h300 : round2 (300 : ℚ) = 300 := round2_eq_self 30000 (by norm_num)
    simp only [categorize_amounts, categorize_preround, allocation_table]
    norm_num
    exact ⟨h700, h0, h300⟩
  · intro m ms ts t a as
    simp [categorize_expenses]
    ring_nf
  · intro m ms a as
    simp [categorize_expenses]
    ring_nf
  · intro t ts a as
    simp [categorize_expenses]
    ring_nf
  · intro a as
    simp [categorize_expenses]
  · intro meds tests
    simp [categorize_expenses]

/-- C7: for every allocation run with non-negative keyword-anchored sums and
an observed total that is a whole number of hundredths (as every parsed
amount is), the three returned amounts sum to at most total + 0.01 (the
two-decimal rounding tolerance), and the pre-rounding amounts — rescaled
proportionally when they would exceed the total — sum to at most the
total. -/
theorem C7_allocation_bounded :
    ∀ (mKw tKw cKw T : ℚ) (hasM hasT : Bool),
      0 ≤ mKw → 0 ≤ tKw → 0 ≤ cKw → (∃ n : ℤ, T = (n : ℚ) / 100) →
      (categorize_amounts mKw tKw cKw T hasM hasT).1 +
        (categorize_amounts mKw tKw cKw T hasM hasT).2.1 +
        (categorize_amounts mKw tKw cKw T hasM hasT).2.2 ≤ T + 1/100 ∧
      (categorize_preround mKw tKw cKw T hasM hasT).1 +
        (categorize_preround mKw tKw cKw T hasM hasT).2.1 +
        (categorize_preround mKw tKw cKw T hasM hasT).2.2 ≤ T := by
  intro mKw tKw cKw T hasM hasT hm ht hc hT100
  obtain ⟨n, rfl⟩ := hT100
  have hpre := categorize_preround_sum_le mKw tKw cKw ((n : ℚ) / 100) hm ht hc hasM hasT
  exact ⟨round2_sum_le n rfl hpre, hpre⟩

/-- C7 witness: keyword sums (300, 300, 500) against total 1000 rescale to
sum 1000 and round to 272.73 + 272.73 + 454.55 = 1000.01 = total + 0.01. -/
theorem C7_allocation_bounded_witness :
    (categorize_amounts 300 300 500 1000 true true).1 +
      (categorize_amounts 300 300 500 1000 true true).2.1 +
      (categorize_amounts 300 300 500 1000 true true).2.2 ≤ 1000 + 1/100 ∧
    (categorize_preround 300 300 500 1000 true true).1 +
      (categorize_preround 300 300 500 1000 true true).2.1 +
      (categorize_preround 300 300 500 1000 true true).2.2 ≤ 1000 :=
  C7_allocation_bounded 300 300 500 1000 true true (by norm_num) (by norm_num)
    (by norm_num) ⟨100000, by norm_num⟩

/-- C9 counterexample: two runs of `parse_medical_claim` on the identical
empty document at two different wall-clock instants differ — `bill_no` embeds
`datetime.now()`, so the output is not a function of the input text alone. -/
theorem C9_determinism_cex :
    parse_medical_claim emptyTextHeuristics ⟨"20240101000000", "01/01/2024"⟩ "" ≠
      parse_medical_claim emptyTextHeuristics ⟨"20240101000001", "01/01/2024"⟩ "" := by
  intro h
  have hb := congrArg ClaimItem.bill_no h
  simp only [parse_medical_claim] at hb
  exact absurd hb (by decide)

/-- C9 amended: apart from the timestamp-derived `bill_no` and the
`my_date` fallback, every field of `parse_medical_claim` is a deterministic
function of the input text (through the pure regex helpers); comparison and
reimbursement are pure functions of their inputs in this embedding. -/
theorem C9_determinism_amended :
    ∀ (ops : TextHeuristics) (now1 now2 : Clock) (raw : String),
      { parse_medical_claim ops now1 raw with bill_no := "", my_date := "" } =
      { parse_medical_claim ops now2 raw with bill_no := "", my_date := "" } := by
  intro ops now1 now2 raw
  rfl
